import Mathlib

/-!
Shallow embedding of `src/voice_bridge/server.py`.

The server exposes one endpoint, `POST /tts` (`generate_speech`), backed by a
global model reference that a lifespan hook (`lifespan`) tries to populate at
startup.  Numpy arrays are embedded as a shape together with the row-major
element sequence; sample values are abstracted as integers (the numeric dtype
plays no role in any claim).  A Python call that may raise is embedded as an
`Option`/`Except` value, with `none`/`error` meaning an exception was raised;
`print` logging is an I/O effect outside the state we reason about.
-/

namespace VoiceBridge

/-- A numpy-style array: `shape` lists the dimension sizes and `data` is the
element sequence in row-major (C) order, exactly as numpy stores it. -/
structure NDArray where
  shape : List Nat
  data : List Int
  deriving DecidableEq, Repr

/-- `np.zeros(n, dtype=np.float32)`: a 1-D array of `n` zero samples. -/
def np_zeros (n : Nat) : NDArray :=
  { shape := [n], data := List.replicate n 0 }

/-- `a.flatten()`: numpy returns the elements in row-major order as a 1-D
array, which is exactly the stored `data` sequence. -/
def NDArray.flatten (a : NDArray) : NDArray :=
  { shape := [a.data.length], data := a.data }

/-- An audio object produced by the model: `hasCpuAttr` holds for torch
tensors (which expose a `.cpu` method; numpy buffers do not), `cpuFails`
records whether the `.cpu().float().numpy()` host-transfer chain raises, and
`arr` is the underlying array.  The torch-to-numpy conversion is value- and
shape-preserving, so a successful transfer yields `arr` itself. -/
structure Tensor where
  hasCpuAttr : Bool
  cpuFails : Bool
  arr : NDArray
  deriving DecidableEq, Repr

/-- `model.generate` returns either a pair `(audio, rate)` or bare audio. -/
inductive ModelOutput where
  | tuple (audio : Tensor) (rate : Nat)
  | bare (audio : Tensor)
  deriving DecidableEq, Repr

/-- The audio component of a model output. -/
def ModelOutput.audio : ModelOutput → Tensor
  | .tuple a _ => a
  | .bare a => a

/-- A loaded model.  `generate text speaker` returning `none` embeds the call
raising an exception.  Making `generate` a mathematical function bakes in the
deterministic-generation assumption used by the idempotence claim. -/
structure Model where
  generate : String → String → Option ModelOutput

/-- Request body (pydantic `TTSRequest`): `text`, and `speaker` defaulting to
"Carter". -/
structure TTSRequest where
  text : String
  speaker : String := "Carter"
  deriving DecidableEq, Repr

/-- The WAV payload written by `sf.write(buffer, audio, sr, format="WAV")`:
header sample rate, channel count, and the interleaved sample sequence.  The
byte-level RIFF encoding is abstracted; equal `WavFile` values encode to
byte-identical payloads. -/
structure WavFile where
  rate : Nat
  channels : Nat
  samples : List Int
  deriving DecidableEq, Repr

/-- The FastAPI `Response(content=..., media_type="audio/wav")` value, with
the implicit default status code 200. -/
structure HTTPResponse where
  status : Nat
  mediaType : String
  body : WavFile
  deriving DecidableEq, Repr

/-- `soundfile.write`: 1-D data is written mono; 2-D data is interpreted as
`[frames, channels]`.  A 0-d array raises (soundfile computes
`data.shape[1]` for any non-1-D input, an IndexError on a scalar), and more
than two dimensions is not writable either; both are embedded as `error`. -/
def sf_write (a : NDArray) (sr : Nat) : Except Unit WavFile :=
  match a.shape with
  | [_] => Except.ok { rate := sr, channels := 1, samples := a.data }
  | [_, c] => Except.ok { rate := sr, channels := c, samples := a.data }
  | _ => Except.error ()

/-- The tuple-unpacking step: `audio, sr = output` when the output is a
tuple, otherwise `audio = output` with `sr` left unchanged. -/
def unpackOutput : ModelOutput → Nat → Tensor × Nat
  | .tuple a r, _ => (a, r)
  | .bare a, _sr0 => (a, _sr0)

/-- The host-transfer step: `if hasattr(audio, "cpu"): audio =
audio.cpu().float().numpy()`.  `none` embeds the chain raising. -/
def hostTransfer (audio : Tensor) : Option NDArray :=
  if audio.hasCpuAttr then
    if audio.cpuFails then none else some audio.arr
  else some audio.arr

/-- The flattening step: `if len(audio.shape) > 1: audio = audio.flatten()`. -/
def maybeFlatten (arr : NDArray) : NDArray :=
  if arr.shape.length > 1 then arr.flatten else arr

/-- The body of the `try` block in `generate_speech`, given the current
default rate `sr0`.  On success it returns the processed buffer and the rate
in effect; on an exception it returns `error s` where `s` is the value the
local `sr` holds at the moment the exception is raised — note the tuple
unpacking reassigns `sr` before the host transfer runs. -/
def tryGenerate (m : Model) (text speaker : String) (sr0 : Nat) :
    Except Nat (NDArray × Nat) :=
  match m.generate text speaker with
  | none => Except.error sr0
  | some output =>
    match hostTransfer (unpackOutput output sr0).1 with
    | none => Except.error (unpackOutput output sr0).2
    | some arr => Except.ok (maybeFlatten arr, (unpackOutput output sr0).2)

/-- The handler up to (but not including) the `sf.write` call, instrumented
with a Bool recording whether the normal generation path was attempted
(i.e. `model.generate` was invoked).  Mirrors: `sr = 24000`; `if not model:`
silent mock buffer; otherwise the `try` block with the
`except: audio = np.zeros(sr)` fallback. -/
def generate_speech_core (m? : Option Model) (req : TTSRequest) :
    Bool × NDArray × Nat :=
  match m? with
  | none => (false, np_zeros 24000, 24000)
  | some m =>
    match tryGenerate m req.text req.speaker 24000 with
    | Except.error s => (true, np_zeros s, s)
    | Except.ok p => (true, p)

/-- The `(audio, sr)` pair the handler passes to `sf.write`. -/
def handlerBuffer (m? : Option Model) (req : TTSRequest) : NDArray × Nat :=
  (generate_speech_core m? req).2

/-- The whole `/tts` handler: encode the buffer as WAV and wrap it in a 200
`audio/wav` response.  `error` means an exception escaped the handler
(`sf.write` sits outside the `try` block). -/
def generate_speech (m? : Option Model) (req : TTSRequest) :
    Except Unit HTTPResponse :=
  match sf_write (handlerBuffer m? req).1 (handlerBuffer m? req).2 with
  | Except.error e => Except.error e
  | Except.ok w =>
    Except.ok { status := 200, mediaType := "audio/wav", body := w }

/-- The startup half of `lifespan`: the import / availability check /
`VibeVoice.from_pretrained` sequence is embedded as `fromPretrained` (any
exception in it becomes `error`), and the optional `model.cuda()` device
move as `toCuda`, attempted only when CUDA is available.  The surrounding
`try ... except Exception` catches every failure and prints diagnostics (an
I/O effect outside this embedding), so the function always completes and
yields.  Note the assignment order in the source: the global `model` is
assigned the `from_pretrained` result BEFORE `model = model.cuda()` runs,
so when the device move raises, the global keeps the already-assigned,
un-moved model — only a failure up to and including `from_pretrained`
leaves the reference unset. -/
def lifespan_load (cudaAvailable : Bool) (fromPretrained : Except String Model)
    (toCuda : Model → Except String Model) : Option Model :=
  match fromPretrained with
  | Except.error _ => none
  | Except.ok m =>
    if cudaAvailable then
      match toCuda m with
      | Except.error _ => some m
      | Except.ok mc => some mc
    else some m

/-- Rate embedded in a response, 0 when the handler raised. -/
def respRate : Except Unit HTTPResponse → Nat
  | Except.ok r => r.body.rate
  | Except.error _ => 0

/-- The successful response wrapper: status 200, media type audio/wav. -/
def okResponse (w : WavFile) : HTTPResponse :=
  { status := 200, mediaType := "audio/wav", body := w }

/-- A mono WAV of `s` zero samples at rate `s`: one second of silence. -/
def silentWav (s : Nat) : WavFile :=
  { rate := s, channels := 1, samples := List.replicate s 0 }

/-- The run takes the silent-fallback path: either the model is absent, or
the `try` block raised. -/
def fallbackRun (m? : Option Model) (req : TTSRequest) : Prop :=
  m? = none ∨
    ∃ m s, m? = some m ∧
      tryGenerate m req.text req.speaker 24000 = Except.error s

/-- Every array the model emits for this request has at least one dimension
(rules out the degenerate 0-d scalar output). -/
def outputsNonScalar (m : Model) (req : TTSRequest) : Prop :=
  ∀ out, m.generate req.text req.speaker = some out →
    out.audio.arr.shape ≠ []

/-- A model whose output tuple carries rate 48000 and whose host transfer
raises: the exception fires after `sr` has been reassigned. -/
def rateThenRaiseModel : Model :=
  { generate := fun _ _ => some (.tuple (Tensor.mk true true (np_zeros 5)) 48000) }

/-- A model that returns a bare 0-d (scalar) host buffer. -/
def scalarOutputModel : Model :=
  { generate := fun _ _ => some (.bare (Tensor.mk false false (NDArray.mk [] [7]))) }

/-- A model that returns `(audio, 16000)` with a 1-D host buffer. -/
def tupleRateModel : Model :=
  { generate := fun _ _ => some (.tuple (Tensor.mk false false (np_zeros 3)) 16000) }

/-- A model that returns a bare `[2, 3]` device tensor. -/
def stereoModel : Model :=
  { generate := fun _ _ => some (.bare (Tensor.mk true false (NDArray.mk [2, 3] [1, 2, 3, 4, 5, 6]))) }

/-- A concrete request. -/
def reqHello : TTSRequest := { text := "hello", speaker := "Carter" }

/-- The degraded (model-absent) path: one second of silence at 24000 Hz. -/
lemma degraded_response (req : TTSRequest) :
    generate_speech none req = Except.ok (okResponse (silentWav 24000)) := rfl

/-- The silent-fallback path after a generation exception: `s` zero samples
at rate `s`, where `s` is the rate in effect when the exception fired. -/
lemma fallback_response (m : Model) (req : TTSRequest) (s : Nat)
    (h : tryGenerate m req.text req.speaker 24000 = Except.error s) :
    generate_speech (some m) req = Except.ok (okResponse (silentWav s)) := by
  simp [generate_speech, handlerBuffer, generate_speech_core, h, sf_write,
    np_zeros, okResponse, silentWav]

/-- Tuple unpacking leaves the audio component of either output form. -/
lemma unpackOutput_fst (out : ModelOutput) (sr0 : Nat) :
    (unpackOutput out sr0).1 = out.audio := by
  cases out <;> rfl

/-- A successful host transfer returns the underlying array unchanged. -/
lemma hostTransfer_eq (t : Tensor) (arr : NDArray)
    (h : hostTransfer t = some arr) : arr = t.arr := by
  unfold hostTransfer at h
  split at h
  · split at h
    · exact Option.noConfusion h
    · exact (Option.some.inj h).symm
  · exact (Option.some.inj h).symm

/-- Anatomy of a successful `try` block: the model returned an output, its
host transfer succeeded and preserved the array, the buffer is the possibly
flattened array, and the rate is the one the unpacking step left. -/
lemma tryGenerate_ok_cases (m : Model) (t sp : String) (sr0 : Nat)
    (buf : NDArray) (s : Nat)
    (h : tryGenerate m t sp sr0 = Except.ok (buf, s)) :
    ∃ out, m.generate t sp = some out ∧
      hostTransfer out.audio = some out.audio.arr ∧
      buf = maybeFlatten out.audio.arr ∧ s = (unpackOutput out sr0).2 := by
  rcases hg : m.generate t sp with _ | out
  · simp [tryGenerate, hg] at h
  · rcases hh : hostTransfer (unpackOutput out sr0).1 with _ | arr
    · simp [tryGenerate, hg, hh] at h
    · simp only [tryGenerate, hg, hh, Except.ok.injEq, Prod.mk.injEq] at h
      obtain ⟨h1, h2⟩ := h
      subst h1
      subst h2
      have harr : arr = out.audio.arr := by
        refine hostTransfer_eq out.audio arr ?_
        rw [← unpackOutput_fst out sr0]
        exact hh
      refine ⟨out, rfl, ?_, ?_, rfl⟩
      · rw [unpackOutput_fst out sr0] at hh
        rw [← harr]
        exact hh
      · rw [harr]

/-- Anatomy of a raising `try` block: either the invocation itself raised
(`sr` still the default), or the host transfer raised after unpacking. -/
lemma tryGenerate_error_cases (m : Model) (t sp : String) (sr0 s : Nat)
    (h : tryGenerate m t sp sr0 = Except.error s) :
    (m.generate t sp = none ∧ s = sr0) ∨
    ∃ out, m.generate t sp = some out ∧ hostTransfer out.audio = none ∧
      s = (unpackOutput out sr0).2 := by
  rcases hg : m.generate t sp with _ | out
  · simp only [tryGenerate, hg, Except.error.injEq] at h
    exact Or.inl ⟨rfl, h.symm⟩
  · rcases hh : hostTransfer (unpackOutput out sr0).1 with _ | arr
    · simp only [tryGenerate, hg, hh, Except.error.injEq] at h
      refine Or.inr ⟨out, rfl, ?_, h.symm⟩
      rw [← unpackOutput_fst out sr0]
      exact hh
    · simp [tryGenerate, hg, hh] at h

/-- The buffer the handler encodes after a successful generation. -/
lemma handlerBuffer_of_ok (m : Model) (req : TTSRequest) (buf : NDArray)
    (s : Nat) (h : tryGenerate m req.text req.speaker 24000 = Except.ok (buf, s)) :
    handlerBuffer (some m) req = (buf, s) := by
  simp [handlerBuffer, generate_speech_core, h]

/-- The buffer the handler encodes after a generation exception. -/
lemma handlerBuffer_of_error (m : Model) (req : TTSRequest) (s : Nat)
    (h : tryGenerate m req.text req.speaker 24000 = Except.error s) :
    handlerBuffer (some m) req = (np_zeros s, s) := by
  simp [handlerBuffer, generate_speech_core, h]

/-- A successful `sf.write` embeds the requested sample rate. -/
lemma sf_write_rate (a : NDArray) (sr : Nat) (w : WavFile)
    (h : sf_write a sr = Except.ok w) : w.rate = sr := by
  unfold sf_write at h
  split at h
  · exact (congrArg WavFile.rate (Except.ok.inj h)).symm
  · exact (congrArg WavFile.rate (Except.ok.inj h)).symm
  · exact Except.noConfusion h

/-- A successful handler response wraps the result of encoding the handler
buffer, with status 200 and media type audio/wav. -/
lemma generate_speech_ok_body (m? : Option Model) (req : TTSRequest)
    (resp : HTTPResponse) (h : generate_speech m? req = Except.ok resp) :
    sf_write (handlerBuffer m? req).1 (handlerBuffer m? req).2 =
      Except.ok resp.body ∧
    resp.status = 200 ∧ resp.mediaType = "audio/wav" := by
  unfold generate_speech at h
  split at h
  · exact Except.noConfusion h
  · rename_i w hw
    injection h with h1
    subst h1
    exact ⟨hw, rfl, rfl⟩

/-- A list of length at most one that is not empty is a singleton. -/
lemma shape_singleton (l : List Nat) (h1 : l.length ≤ 1) (h2 : l ≠ []) :
    ∃ n, l = [n] := by
  rcases l with _ | ⟨a, l2⟩
  · exact absurd rfl h2
  · rcases l2 with _ | ⟨b, t⟩
    · exact ⟨a, rfl⟩
    · simp at h1

/-- Flattening a non-scalar array always yields a 1-D array. -/
lemma maybeFlatten_shape (arr : NDArray) (h : arr.shape ≠ []) :
    ∃ n, (maybeFlatten arr).shape = [n] := by
  unfold maybeFlatten
  split
  · exact ⟨arr.data.length, rfl⟩
  · rename_i hle
    exact shape_singleton arr.shape (by omega) h

/-- When every model output is at least 1-dimensional, the buffer the
handler hands to the encoder is 1-D on every path. -/
lemma handlerBuffer_shape (m? : Option Model) (req : TTSRequest)
    (h : ∀ m, m? = some m → outputsNonScalar m req) :
    ∃ n, (handlerBuffer m? req).1.shape = [n] := by
  rcases m? with _ | m
  · exact ⟨24000, rfl⟩
  · rcases htry : tryGenerate m req.text req.speaker 24000 with s | ⟨buf, s⟩
    · rw [handlerBuffer_of_error m req s htry]
      exact ⟨s, rfl⟩
    · rw [handlerBuffer_of_ok m req buf s htry]
      obtain ⟨out, hg, hh, hbuf, hs⟩ :=
        tryGenerate_ok_cases m req.text req.speaker 24000 buf s htry
      have hns : out.audio.arr.shape ≠ [] := h m rfl out hg
      rw [hbuf]
      exact maybeFlatten_shape out.audio.arr hns

/-- The tuple-rate model emits only 1-D buffers. -/
lemma tupleRateModel_nonScalar : outputsNonScalar tupleRateModel reqHello := by
  intro out hout
  have hout2 : ModelOutput.tuple (Tensor.mk false false (np_zeros 3)) 16000 = out :=
    Option.some.inj hout
  rw [← hout2]
  simp [ModelOutput.audio, np_zeros]

/-- C1 fails on the code: when the model output tuple carries rate 48000 and
the host transfer then raises, the fallback buffer is 48000 zeros at 48000
Hz, not the claimed 24000 zeros at the default 24000 Hz. -/
theorem c1_counterexample :
    tryGenerate rateThenRaiseModel reqHello.text reqHello.speaker 24000 =
      Except.error 48000 ∧
    generate_speech (some rateThenRaiseModel) reqHello ≠
      Except.ok (okResponse (silentWav 24000)) := by
  refine ⟨rfl, fun h => ?_⟩
  have h48 : respRate (generate_speech (some rateThenRaiseModel) reqHello) =
      48000 := rfl
  have h24 : respRate (Except.ok (okResponse (silentWav 24000))) = 24000 := rfl
  rw [h, h24] at h48
  exact absurd h48 (by decide)

/-- C1 amended: when the generation pipeline raises, the handler responds
with a silent buffer of `s` zero samples at rate `s`, where `s` is the rate
in effect at the exception: the default 24000 unless the output tuple was
unpacked first, in which case it is the rate supplied by the model. -/
theorem c1_amended (m : Model) (req : TTSRequest) (s : Nat)
    (h : tryGenerate m req.text req.speaker 24000 = Except.error s) :
    generate_speech (some m) req = Except.ok (okResponse (silentWav s)) ∧
    (s = 24000 ∨
      ∃ a, m.generate req.text req.speaker = some (.tuple a s)) := by
  refine ⟨fallback_response m req s h, ?_⟩
  rcases tryGenerate_error_cases m req.text req.speaker 24000 s h with
    ⟨hg, hs⟩ | ⟨out, hg, hh, hs⟩
  · exact Or.inl hs
  · rcases out with ⟨a, r⟩ | a
    · right
      exact ⟨a, by rw [hg, hs]; rfl⟩
    · exact Or.inl (by rw [hs]; rfl)

/-- C1 amended, at the concrete failing model: the tuple rate 48000 is
in effect when the transfer raises, and the response is one second of
silence at 48000 Hz. -/
theorem c1_witness :
    tryGenerate rateThenRaiseModel reqHello.text reqHello.speaker 24000 =
      Except.error 48000 ∧
    (generate_speech (some rateThenRaiseModel) reqHello =
        Except.ok (okResponse (silentWav 48000)) ∧
      ((48000 : Nat) = 24000 ∨
        ∃ a, rateThenRaiseModel.generate reqHello.text reqHello.speaker =
          some (.tuple a 48000))) :=
  ⟨rfl, c1_amended rateThenRaiseModel reqHello 48000 rfl⟩

/-- C2 fails on the code: a bare 0-d (scalar) model output passes the
flattening guard untouched and makes the encoder raise outside the `try`
block, so the endpoint does not return a 200 audio/wav response. -/
theorem c2_counterexample :
    generate_speech (some scalarOutputModel) reqHello = Except.error () ∧
    ¬ ∃ resp, generate_speech (some scalarOutputModel) reqHello =
      Except.ok resp := by
  refine ⟨rfl, ?_⟩
  rintro ⟨resp, hresp⟩
  rw [show generate_speech (some scalarOutputModel) reqHello =
    Except.error () from rfl] at hresp
  exact Except.noConfusion hresp

/-- C2 amended: whenever every array the model emits for the request has at
least one dimension, the handler never raises past its boundary: it returns
HTTP 200 with WAV audio and media type audio/wav on every path. -/
theorem c2_amended (m? : Option Model) (req : TTSRequest)
    (h : ∀ m, m? = some m → outputsNonScalar m req) :
    ∃ resp, generate_speech m? req = Except.ok resp ∧
      resp.status = 200 ∧ resp.mediaType = "audio/wav" := by
  obtain ⟨n, hn⟩ := handlerBuffer_shape m? req h
  refine ⟨okResponse (WavFile.mk (handlerBuffer m? req).2 1
    (handlerBuffer m? req).1.data), ?_, rfl, rfl⟩
  unfold generate_speech
  have hw : sf_write (handlerBuffer m? req).1 (handlerBuffer m? req).2 =
      Except.ok (WavFile.mk (handlerBuffer m? req).2 1
        (handlerBuffer m? req).1.data) := by
    unfold sf_write
    rw [hn]
  rw [hw]
  rfl

/-- C2 amended, at a concrete ready model emitting a 1-D buffer. -/
theorem c2_witness :
    ∃ resp, generate_speech (some tupleRateModel) reqHello = Except.ok resp ∧
      resp.status = 200 ∧ resp.mediaType = "audio/wav" :=
  c2_amended (some tupleRateModel) reqHello
    (fun m hm => by rw [← Option.some.inj hm]; exact tupleRateModel_nonScalar)

/-- C4 fails on the code: a 0-d scalar output reaches the encoder 0-d, not
1-D — the flattening guard only fires for more than one dimension. -/
theorem c4_counterexample :
    (handlerBuffer (some scalarOutputModel) reqHello).1.shape = [] ∧
    (handlerBuffer (some scalarOutputModel) reqHello).1.shape.length ≠ 1 :=
  ⟨rfl, by decide⟩

/-- C4 amended: for every model output with at least one dimension — tuple
or bare, device tensor or host buffer — the buffer the handler passes to
the encoder is 1-D. -/
theorem c4_amended (m? : Option Model) (req : TTSRequest)
    (h : ∀ m, m? = some m → outputsNonScalar m req) :
    (handlerBuffer m? req).1.shape.length = 1 := by
  obtain ⟨n, hn⟩ := handlerBuffer_shape m? req h
  rw [hn]
  rfl

/-- C4 amended, at a concrete ready model emitting a 1-D buffer. -/
theorem c4_witness :
    (handlerBuffer (some tupleRateModel) reqHello).1.shape.length = 1 :=
  c4_amended (some tupleRateModel) reqHello
    (fun m hm => by rw [← Option.some.inj hm]; exact tupleRateModel_nonScalar)

/-- C3: a request arriving while the model is not ready gets, without any
exception, a 200 audio/wav response holding a mono buffer of exactly 24000
samples at 24000 Hz, all of them zero. -/
theorem c3_degraded (req : TTSRequest) :
    generate_speech none req = Except.ok (okResponse (silentWav 24000)) ∧
    (okResponse (silentWav 24000)).status = 200 ∧
    (okResponse (silentWav 24000)).mediaType = "audio/wav" ∧
    (okResponse (silentWav 24000)).body.channels = 1 ∧
    (okResponse (silentWav 24000)).body.rate = 24000 ∧
    (okResponse (silentWav 24000)).body.samples = List.replicate 24000 0 :=
  ⟨degraded_response req, rfl, rfl, rfl, rfl, rfl⟩

/-- C5: when the model output is a pair `(audio, rate)` and the pipeline
runs without exception, the WAV header carries the model-supplied rate, not
the default; when the output is bare audio, the default 24000 Hz is kept. -/
theorem c5_rate (m : Model) (req : TTSRequest) :
    (∀ a r buf s resp,
      m.generate req.text req.speaker = some (.tuple a r) →
      tryGenerate m req.text req.speaker 24000 = Except.ok (buf, s) →
      generate_speech (some m) req = Except.ok resp →
      resp.body.rate = r) ∧
    (∀ a buf s resp,
      m.generate req.text req.speaker = some (.bare a) →
      tryGenerate m req.text req.speaker 24000 = Except.ok (buf, s) →
      generate_speech (some m) req = Except.ok resp →
      resp.body.rate = 24000) := by
  constructor
  · intro a r buf s resp hg htry hresp
    obtain ⟨hw, _, _⟩ := generate_speech_ok_body (some m) req resp hresp
    rw [handlerBuffer_of_ok m req buf s htry] at hw
    have hrate : resp.body.rate = s := sf_write_rate buf s resp.body hw
    obtain ⟨out, hg2, hh, hbuf, hs⟩ :=
      tryGenerate_ok_cases m req.text req.speaker 24000 buf s htry
    rw [hg] at hg2
    have hout := Option.some.inj hg2
    rw [hrate, hs, ← hout]
    rfl
  · intro a buf s resp hg htry hresp
    obtain ⟨hw, _, _⟩ := generate_speech_ok_body (some m) req resp hresp
    rw [handlerBuffer_of_ok m req buf s htry] at hw
    have hrate : resp.body.rate = s := sf_write_rate buf s resp.body hw
    obtain ⟨out, hg2, hh, hbuf, hs⟩ :=
      tryGenerate_ok_cases m req.text req.speaker 24000 buf s htry
    rw [hg] at hg2
    have hout := Option.some.inj hg2
    rw [hrate, hs, ← hout]
    rfl

/-- C5 at a concrete model returning `(audio, 16000)`: the response header
carries 16000 Hz. -/
theorem c5_witness :
    tupleRateModel.generate reqHello.text reqHello.speaker =
      some (.tuple (Tensor.mk false false (np_zeros 3)) 16000) ∧
    tryGenerate tupleRateModel reqHello.text reqHello.speaker 24000 =
      Except.ok (np_zeros 3, 16000) ∧
    generate_speech (some tupleRateModel) reqHello =
      Except.ok (okResponse (WavFile.mk 16000 1 (List.replicate 3 0))) ∧
    (okResponse (WavFile.mk 16000 1 (List.replicate 3 0))).body.rate = 16000 :=
  ⟨rfl, rfl, rfl,
    (c5_rate tupleRateModel reqHello).1 (Tensor.mk false false (np_zeros 3))
      16000 (np_zeros 3) 16000
      (okResponse (WavFile.mk 16000 1 (List.replicate 3 0))) rfl rfl rfl⟩

/-- C6: a `[c, n]` output processed without exception yields exactly the
`c * n` elements of the original array, in row-major order (the stored
`data` sequence), as a single channel — a pure flatten, no downmixing. -/
theorem c6_flatten (m : Model) (req : TTSRequest) (out : ModelOutput)
    (c n : Nat) (buf : NDArray) (s : Nat) (resp : HTTPResponse)
    (hg : m.generate req.text req.speaker = some out)
    (hshape : out.audio.arr.shape = [c, n])
    (hwf : out.audio.arr.data.length = c * n)
    (htry : tryGenerate m req.text req.speaker 24000 = Except.ok (buf, s))
    (hresp : generate_speech (some m) req = Except.ok resp) :
    resp.body.samples = out.audio.arr.data ∧
    resp.body.samples.length = c * n ∧
    resp.body.channels = 1 := by
  obtain ⟨hw, _, _⟩ := generate_speech_ok_body (some m) req resp hresp
  rw [handlerBuffer_of_ok m req buf s htry] at hw
  have hw3 : sf_write buf s = Except.ok resp.body := hw
  obtain ⟨out2, hg2, hh, hbuf, hs⟩ :=
    tryGenerate_ok_cases m req.text req.speaker 24000 buf s htry
  rw [hg] at hg2
  have hout : out = out2 := Option.some.inj hg2
  subst hout
  have hbuf2 : buf = out.audio.arr.flatten := by
    rw [hbuf]
    unfold maybeFlatten
    rw [hshape]
    simp
  rw [hbuf2] at hw3
  have hbody : WavFile.mk s 1 out.audio.arr.data = resp.body :=
    Except.ok.inj hw3
  refine ⟨?_, ?_, ?_⟩
  · rw [← hbody]
  · rw [← hbody]
    exact hwf
  · rw [← hbody]

/-- C6 at a concrete model returning a `[2, 3]` device tensor: all six
elements come back, row-major, in one channel. -/
theorem c6_witness :
    (okResponse (WavFile.mk 24000 1 [1, 2, 3, 4, 5, 6])).body.samples =
      [(1 : Int), 2, 3, 4, 5, 6] ∧
    (okResponse (WavFile.mk 24000 1 [1, 2, 3, 4, 5, 6])).body.samples.length =
      2 * 3 ∧
    (okResponse (WavFile.mk 24000 1 [1, 2, 3, 4, 5, 6])).body.channels = 1 :=
  c6_flatten stereoModel reqHello
    (.bare (Tensor.mk true false (NDArray.mk [2, 3] [1, 2, 3, 4, 5, 6])))
    2 3 (NDArray.mk [6] [1, 2, 3, 4, 5, 6]) 24000
    (okResponse (WavFile.mk 24000 1 [1, 2, 3, 4, 5, 6]))
    rfl rfl rfl rfl rfl

/-- With a model present the handler always invokes generation. -/
lemma core_invoked (m : Model) (req : TTSRequest) :
    (generate_speech_core (some m) req).1 = true := by
  rcases htry : tryGenerate m req.text req.speaker 24000 with s | p <;>
    simp [generate_speech_core, htry]

/-- C7: the handler takes the degraded silent path exactly when no model
reference is set (the instrumentation bit records whether `model.generate`
was invoked), and in that case the buffer is the default one-second
silence. -/
theorem c7_ready_iff (m? : Option Model) (req : TTSRequest) :
    ((generate_speech_core m? req).1 = false ↔ m? = none) ∧
    (m? = none → handlerBuffer m? req = (np_zeros 24000, 24000)) := by
  rcases m? with _ | m
  · exact ⟨by simp [generate_speech_core], fun _ => rfl⟩
  · refine ⟨?_, fun hnone => Option.noConfusion hnone⟩
    rw [core_invoked m req]
    simp

/-- C7 at concrete states: a ready model attempts generation; an absent
model yields the default silent buffer. -/
theorem c7_witness :
    ((generate_speech_core (some tupleRateModel) reqHello).1 = false ↔
      (some tupleRateModel : Option Model) = none) ∧
    handlerBuffer (none : Option Model) reqHello = (np_zeros 24000, 24000) :=
  ⟨(c7_ready_iff (some tupleRateModel) reqHello).1,
    (c7_ready_iff (none : Option Model) reqHello).2 rfl⟩

/-- C8 fails on the code: the global model is assigned the
`from_pretrained` result before `model = model.cuda()` runs, so a raising
device move leaves the reference SET to the un-moved model — startup does
complete, but the next request takes the normal generation path, not the
degraded one the claim promises. -/
theorem c8_counterexample :
    lifespan_load true (Except.ok tupleRateModel)
      (fun _ => Except.error "flash-attn missing") = some tupleRateModel ∧
    (generate_speech_core (lifespan_load true (Except.ok tupleRateModel)
      (fun _ => Except.error "flash-attn missing")) reqHello).1 = true :=
  ⟨rfl, rfl⟩

/-- C8 amended: an exception during model acquisition (import, availability
check, `from_pretrained`) is caught: startup completes with the model
reference unset and subsequent requests get the degraded silent response.
An exception during the `.cuda()` device move is caught as well and startup
still completes normally, but the reference keeps the already-assigned,
un-moved model, so subsequent requests attempt normal generation instead of
the degraded path. -/
theorem c8_amended (cuda : Bool) (fp : Except String Model)
    (tc : Model → Except String Model) (req : TTSRequest) :
    (∀ e, fp = Except.error e →
      lifespan_load cuda fp tc = none ∧
      generate_speech (lifespan_load cuda fp tc) req =
        Except.ok (okResponse (silentWav 24000))) ∧
    (∀ m e, fp = Except.ok m → cuda = true → tc m = Except.error e →
      lifespan_load cuda fp tc = some m ∧
      (generate_speech_core (lifespan_load cuda fp tc) req).1 = true) := by
  refine ⟨?_, ?_⟩
  · intro e he
    subst he
    exact ⟨rfl, degraded_response req⟩
  · intro m e hm hc htc
    subst hm
    subst hc
    have hset : lifespan_load true (Except.ok m) tc = some m := by
      simp [lifespan_load, htc]
    refine ⟨hset, ?_⟩
    rw [hset]
    exact core_invoked m req

/-- C8 amended at concrete runs: a failed download leaves the service
unready and serving silence; a failed device move leaves the un-moved
model set and generation attempted. -/
theorem c8_witness :
    (lifespan_load true (Except.error "weights unavailable")
        (fun m => Except.ok m) = none ∧
      generate_speech (lifespan_load true (Except.error "weights unavailable")
        (fun m => Except.ok m)) reqHello =
        Except.ok (okResponse (silentWav 24000))) ∧
    (lifespan_load true (Except.ok tupleRateModel)
        (fun _ => Except.error "cuda move failed") = some tupleRateModel ∧
      (generate_speech_core (lifespan_load true (Except.ok tupleRateModel)
        (fun _ => Except.error "cuda move failed")) reqHello).1 = true) :=
  ⟨(c8_amended true (Except.error "weights unavailable") (fun m => Except.ok m)
      reqHello).1 "weights unavailable" rfl,
    (c8_amended true (Except.ok tupleRateModel)
      (fun _ => Except.error "cuda move failed") reqHello).2 tupleRateModel
      "cuda move failed" rfl rfl rfl⟩

/-- C9: two requests with the same text and the same voice receive
byte-identical WAV responses in any model state — the embedding of
`generate` as a function is exactly the deterministic-generation
assumption. -/
theorem c9_idempotent (m? : Option Model) (r1 r2 : TTSRequest)
    (ht : r1.text = r2.text) (hs : r1.speaker = r2.speaker) :
    generate_speech m? r1 = generate_speech m? r2 := by
  have h : r1 = r2 := by
    cases r1
    cases r2
    exact (TTSRequest.mk.injEq _ _ _ _).mpr ⟨ht, hs⟩
  rw [h]

/-- C9 at a concrete repeated request. -/
theorem c9_witness :
    generate_speech none (TTSRequest.mk "hi" "Ava") =
      generate_speech none (TTSRequest.mk "hi" "Ava") :=
  c9_idempotent none (TTSRequest.mk "hi" "Ava") (TTSRequest.mk "hi" "Ava")
    rfl rfl

/-- C10: on every silent-fallback response the number of zero samples equals
the sample rate written into the header — one second of silence — also when
that rate is the one taken from the model output tuple before the
exception. -/
theorem c10_fallback_duration (m? : Option Model) (req : TTSRequest)
    (h : fallbackRun m? req) :
    ∃ s, generate_speech m? req = Except.ok (okResponse (silentWav s)) ∧
      (silentWav s).samples = List.replicate (silentWav s).rate 0 ∧
      (silentWav s).samples.length = (silentWav s).rate := by
  rcases h with hnone | ⟨m, s, hm, htry⟩
  · subst hnone
    exact ⟨24000, degraded_response req, rfl, List.length_replicate _ _⟩
  · subst hm
    exact ⟨s, fallback_response m req s htry, rfl, List.length_replicate _ _⟩

/-- C10 at the concrete exception-after-unpack run: 48000 zero samples at
48000 Hz, still exactly one second. -/
theorem c10_witness :
    ∃ s, generate_speech (some rateThenRaiseModel) reqHello =
      Except.ok (okResponse (silentWav s)) ∧
      (silentWav s).samples = List.replicate (silentWav s).rate 0 ∧
      (silentWav s).samples.length = (silentWav s).rate :=
  c10_fallback_duration (some rateThenRaiseModel) reqHello
    (Or.inr ⟨rateThenRaiseModel, 48000, rfl, rfl⟩)

end VoiceBridge
